import Mathlib

/-!
Dock window shims: acceptability filter, activity tracker, strut computation

A shallow embedding of `src/src/xwindowinterface.cpp` and `src/src/activity.cpp`.

* The window manager (KWindowSystem / KX11Extras / KWindowInfo) is an external
  collaborator.  A `KWindowInfo` value is the snapshot a query returns; the
  window manager state `WindowManager` maps a handle to that snapshot.
* Qt signals are modelled as the list of signals emitted, in order.
* C++ `int` arithmetic is modelled on `Int`, every result reduced to the
  32-bit two's complement range by `toInt32`.
-/

namespace Dock

/-! ## Window manager vocabulary (KWindowSystem `NET` definitions) -/

/-- Window handle (`WId` / `quint64`). Handle `0` is "no window". -/
abbrev WId := Nat

/-- The enumeration `NET::WindowType`; `Unknown` is the value `-1`. -/
inductive WindowType where
  | Unknown | Normal | Desktop | Dock | Toolbar | Menu | Dialog | Override
  | TopMenu | Utility | Splash | DropdownMenu | PopupMenu | Tooltip
  | Notification | ComboBox | DNDIcon | OnScreenDisplay
  | CriticalNotification | AppletPopup
  deriving DecidableEq, Repr

/-- Bit of `NET::WindowTypeMask` belonging to a type (`NormalMask = 1 << 0`,
`DesktopMask = 1 << 1`, ...). `Unknown` has no mask bit. -/
def WindowType.mask : WindowType → Nat
  | .Unknown => 0
  | .Normal => 1 <<< 0
  | .Desktop => 1 <<< 1
  | .Dock => 1 <<< 2
  | .Toolbar => 1 <<< 3
  | .Menu => 1 <<< 4
  | .Dialog => 1 <<< 5
  | .Override => 1 <<< 6
  | .TopMenu => 1 <<< 7
  | .Utility => 1 <<< 8
  | .Splash => 1 <<< 9
  | .DropdownMenu => 1 <<< 10
  | .PopupMenu => 1 <<< 11
  | .Tooltip => 1 <<< 12
  | .Notification => 1 <<< 13
  | .ComboBox => 1 <<< 14
  | .DNDIcon => 1 <<< 15
  | .OnScreenDisplay => 1 <<< 16
  | .CriticalNotification => 1 <<< 17
  | .AppletPopup => 1 <<< 18

/-- The library predicate `NET::typeMatchesMask(type, mask)`: a switch over the
type that tests the type's own mask bit; `Unknown` takes the default branch. -/
def typeMatchesMask (type : WindowType) (mask : Nat) : Bool :=
  match type with
  | .Unknown => false
  | t => (mask &&& t.mask) != 0

/-- Flags of `NET::State` used by the program. -/
def NET_MaxVert : Nat := 1 <<< 2
/-- Flag `NET::MaxHoriz`. -/
def NET_MaxHoriz : Nat := 1 <<< 3
/-- Flag `NET::SkipTaskbar`. -/
def NET_SkipTaskbar : Nat := 1 <<< 5
/-- Flag `NET::SkipPager`. -/
def NET_SkipPager : Nat := 1 <<< 7

/-- Snapshot returned by a `KWindowInfo` query for one handle. -/
structure KWindowInfo where
  /-- Result of `valid()`. -/
  valid : Bool
  /-- Result of `windowType(NET::AllTypesMask)`. -/
  windowType : WindowType
  /-- Result of `state()`, a bit set of `NET::State`. -/
  state : Nat
  /-- Result of `transientFor()`; `0` when unset. -/
  transientFor : WId
  /-- Result of `isMinimized()`. -/
  isMinimized : Bool
  /-- Result of `windowClassClass()`. -/
  windowClassClass : String
  /-- Result of `pid()`. -/
  pid : Int
  deriving Repr

/-- The library method `KWindowInfo::hasState(s)`: all bits of `s` are set. -/
def KWindowInfo.hasState (info : KWindowInfo) (s : Nat) : Bool :=
  (info.state &&& s) == s

/-- Value of `QGuiApplication::platformNativeInterface()` when it is not null. -/
structure NativeInterface where
  /-- Pointer returned by `nativeResourceForIntegration("rootwindow")`, as an
  integer; `0` is the null pointer. -/
  rootwindowResource : Nat
  deriving Repr

/-- State of the window manager and platform at the time of a call. -/
structure WindowManager where
  /-- Result of `KX11Extras::windows()`. -/
  windows : List WId
  /-- Result of `KX11Extras::activeWindow()`; `0` when there is none. -/
  activeWindow : WId
  /-- Result of a `KWindowInfo` query for a handle. -/
  info : WId → KWindowInfo
  /-- The root window of the platform. The program never reads it from here: it
  learns it only through the native interface resource below. -/
  rootWindow : WId
  /-- Result of `QGuiApplication::platformNativeInterface()`; `none` is null. -/
  nativeInterface : Option NativeInterface

/-! ## `XWindowInterface::isAcceptableWindow` -/

/-- The local `ignoreList` of `isAcceptableWindow`. -/
def ignoreList : Nat :=
  WindowType.Desktop.mask ||| WindowType.Dock.mask ||| WindowType.Splash.mask |||
  WindowType.Toolbar.mask ||| WindowType.Menu.mask ||| WindowType.PopupMenu.mask |||
  WindowType.Notification.mask

/-- The local `normalFlag` of `isAcceptableWindow`. -/
def normalFlag : Nat :=
  WindowType.Normal.mask ||| WindowType.Dialog.mask ||| WindowType.Utility.mask

/-- The block guarded by `if (nativeInterface)` in `isAcceptableWindow`:
`true` when that block executes `return true`. -/
def rootBlockReturns (wm : WindowManager) (wid transFor : WId) : Bool :=
  match wm.nativeInterface with
  | none => false
  | some nativeInterface =>
    let resource := nativeInterface.rootwindowResource
    if resource != 0 then
      let rootWindow := resource % 2 ^ 32
      transFor == 0 || transFor == wid || transFor == rootWindow
    else false

/-- `XWindowInterface::isAcceptableWindow(wid)`. -/
def isAcceptableWindow (wm : WindowManager) (wid : WId) : Bool :=
  let info := wm.info wid
  if !info.valid then false
  else if typeMatchesMask info.windowType ignoreList then false
  else if info.hasState NET_SkipTaskbar || info.hasState NET_SkipPager then false
  else
    let transFor := info.transientFor
    if rootBlockReturns wm wid transFor then true
    else if transFor == 0 || transFor == wid then true
    else
      let transInfo := wm.info transFor
      !typeMatchesMask transInfo.windowType normalFlag

/-! ## Window event relay -/

/-- Signals of `XWindowInterface`. -/
inductive RelaySignal where
  | windowAdded (wid : WId)
  | windowRemoved (wid : WId)
  | activeChanged (wid : WId)
  deriving DecidableEq, Repr

/-- `XWindowInterface::processWindowAdded(wid)`: the signals it emits. -/
def processWindowAdded (wm : WindowManager) (wid : WId) : List RelaySignal :=
  if isAcceptableWindow wm wid then [RelaySignal.windowAdded wid] else []

/-- `XWindowInterface::handleWindowAdded(wid)`. -/
def handleWindowAdded (wm : WindowManager) (wid : WId) : List RelaySignal :=
  processWindowAdded wm wid

/-- `XWindowInterface::handleWindowRemoved(wid)`. -/
def handleWindowRemoved (wid : WId) : List RelaySignal :=
  [RelaySignal.windowRemoved wid]

/-- `XWindowInterface::handleActiveWindowChanged(wid)`. -/
def handleActiveWindowChanged (wid : WId) : List RelaySignal :=
  [RelaySignal.activeChanged wid]

/-- The loop of `startInitWindows` over a list of handles. -/
def initWindowsLoop (wm : WindowManager) : List WId → List RelaySignal
  | [] => []
  | wid :: rest => processWindowAdded wm wid ++ initWindowsLoop wm rest

/-- `XWindowInterface::startInitWindows()`. -/
def startInitWindows (wm : WindowManager) : List RelaySignal :=
  let windows := wm.windows
  initWindowsLoop wm windows

/-! ## Dock settings -/

/-- Modelled from the spec: the enumeration `DockSettings::Visibility` is declared
in `docksettings.h`, which is not among the sources; the spec says it is an
enum including "intelligent hide". Every other mode is `Other`. -/
inductive Visibility where
  | IntellHide
  | Other (tag : Nat)
  deriving DecidableEq, Repr

/-- Modelled from the spec: the enumeration `DockSettings::Style` is declared in
`docksettings.h`, which is not among the sources; the spec says it is an enum
including "round". Every other style is `Other`. -/
inductive Style where
  | Round
  | Other (tag : Nat)
  deriving DecidableEq, Repr

/-- Modelled from the spec: the enumeration `DockSettings::Direction` is declared
in `docksettings.h`, which is not among the sources; the spec names left,
bottom and right, and top as unhandled. -/
inductive Direction where
  | Left | Bottom | Right | Top
  deriving DecidableEq, Repr

/-- Values read from `DockSettings::self()`. -/
structure DockSettings where
  /-- Result of `visibility()`. -/
  visibility : Visibility
  /-- Result of `style()`. -/
  style : Style
  /-- Result of `edgeMargins()`, a C++ `int`. -/
  edgeMargins : Int
  deriving Repr

/-! ## `Activity` -/

/-- Member variables of `Activity`. -/
structure Activity where
  m_existsWindowMaximized : Bool
  m_launchPad : Bool
  m_pid : Int
  m_windowClass : String
  deriving DecidableEq, Repr

/-- Signals of `Activity`. -/
inductive ActivitySignal where
  | launchPadChanged
  | existsWindowMaximizedChanged
  deriving DecidableEq, Repr

/-- The `for (WId wid : windows)` loop of `onActiveWindowChanged`, started with
the local `existsWindowMaximized = false`: the value of that local after the
loop. -/
def existsAnyMaximizedWindow (wm : WindowManager) : List WId → Bool
  | [] => false
  | wid :: rest =>
    let windowInfo := wm.info wid
    if windowInfo.isMinimized || windowInfo.hasState NET_SkipTaskbar then
      existsAnyMaximizedWindow wm rest
    else if windowInfo.hasState NET_MaxVert && windowInfo.hasState NET_MaxHoriz then
      true
    else
      existsAnyMaximizedWindow wm rest

/-- `Activity::onActiveWindowChanged()`: the new member values and the signals
emitted, in order. `QString::toLower` is rendered by `String.toLower`. -/
def onActiveWindowChanged (settings : DockSettings) (wm : WindowManager)
    (self : Activity) : Activity × List ActivitySignal :=
  let activeWindow := wm.activeWindow
  if activeWindow == 0 then
    if self.m_launchPad then
      ({ self with m_launchPad := false }, [ActivitySignal.launchPadChanged])
    else
      (self, [])
  else
    let info := wm.info activeWindow
    let windowClass := info.windowClassClass
    let launchPad := windowClass == "cutefish-launcher" || info.windowType == WindowType.Dock
    -- intelligent hide
    let step1 : Activity × List ActivitySignal :=
      if settings.visibility == Visibility.IntellHide then
        let existsWindowMaximized := existsAnyMaximizedWindow wm wm.windows
        if self.m_existsWindowMaximized != existsWindowMaximized then
          ({ self with m_existsWindowMaximized := existsWindowMaximized },
            [ActivitySignal.existsWindowMaximizedChanged])
        else (self, [])
      else (self, [])
    -- launcher state
    let step2 : Activity × List ActivitySignal :=
      if step1.1.m_launchPad != launchPad then
        ({ step1.1 with m_launchPad := launchPad },
          step1.2 ++ [ActivitySignal.launchPadChanged])
      else step1
    ({ step2.1 with m_pid := info.pid, m_windowClass := windowClass.toLower }, step2.2)

/-! ## `XWindowInterface::setViewStruts` -/

/-- Reduction of an integer to the range of a 32-bit C++ `int`. -/
def toInt32 (i : Int) : Int := (i + 2147483648) % 4294967296 - 2147483648

/-- A value of a 32-bit C++ `int`. -/
def isInt32 (i : Int) : Prop := -2147483648 ≤ i ∧ i ≤ 2147483647

instance (i : Int) : Decidable (isInt32 i) := by
  unfold isInt32; exact inferInstance

/-- A `QRect` as the program reads it: the results of `x()`, `y()`, `width()`
and `height()`. -/
structure QRect where
  x : Int
  y : Int
  width : Int
  height : Int
  deriving DecidableEq, Repr

/-- The method `QRect::left()`, the x coordinate of the left edge. -/
def QRect.left (r : QRect) : Int := r.x

/-- All four accessors return C++ `int` values. -/
def QRect.isInt32 (r : QRect) : Prop :=
  Dock.isInt32 r.x ∧ Dock.isInt32 r.y ∧ Dock.isInt32 r.width ∧ Dock.isInt32 r.height

instance (r : QRect) : Decidable r.isInt32 := by
  unfold QRect.isInt32; exact inferInstance

/-- The library record `NETExtendedStrut`; its constructor zeroes every field. -/
structure NETExtendedStrut where
  left_width : Int := 0
  left_start : Int := 0
  left_end : Int := 0
  right_width : Int := 0
  right_start : Int := 0
  right_end : Int := 0
  top_width : Int := 0
  top_start : Int := 0
  top_end : Int := 0
  bottom_width : Int := 0
  bottom_start : Int := 0
  bottom_end : Int := 0
  deriving DecidableEq, Repr

/-- `XWindowInterface::setViewStruts(view, direction, rect, compositing)`: the
value of the local `strut` after the switch. `screenGeometry` is
`view->screen()->geometry()`. -/
def setViewStruts (settings : DockSettings) (screenGeometry : QRect)
    (direction : Direction) (rect : QRect) (compositing : Bool) : NETExtendedStrut :=
  let strut : NETExtendedStrut := {}
  let isRound := settings.style == Style.Round
  let edgeMargins : Int := if compositing && isRound then settings.edgeMargins else 0
  match direction with
  | .Left =>
    let leftOffset := screenGeometry.left
    { strut with
      left_width := toInt32 (toInt32 (rect.width + leftOffset) + edgeMargins)
      left_start := rect.y
      left_end := toInt32 (toInt32 (rect.y + rect.height) - 1) }
  | .Bottom =>
    { strut with
      bottom_width := toInt32 (rect.height + edgeMargins)
      bottom_start := rect.x
      bottom_end := toInt32 (rect.x + rect.width) }
  | .Right =>
    { strut with
      right_width := toInt32 (rect.width + edgeMargins)
      right_start := rect.y
      right_end := toInt32 (toInt32 (rect.y + rect.height) - 1) }
  | _ => strut

/-- Number of `windowAdded` signals, for any handle, in a list of signals. -/
def windowAddedCount (signals : List RelaySignal) : Nat :=
  signals.countP fun s => match s with
    | .windowAdded _ => true
    | _ => false

/-! ## Concrete window manager states -/

/-- A small desktop: `1` is the root window, `5` an application window transient
for the root, `6` a dialog transient for `5`, `7` a dock panel, `8` a maximized
window transient for itself, `9` a minimized maximized window; every other handle
is stale. -/
def sampleInfo : WId → KWindowInfo
  | 1 => ⟨true, .Normal, 0, 0, false, "", 0⟩
  | 5 => ⟨true, .Normal, 0, 1, false, "editor", 100⟩
  | 6 => ⟨true, .Dialog, 0, 5, false, "editor", 100⟩
  | 7 => ⟨true, .Dock, NET_SkipTaskbar ||| NET_SkipPager, 0, false, "panel", 101⟩
  | 8 => ⟨true, .Normal, NET_MaxVert ||| NET_MaxHoriz, 8, false, "viewer", 102⟩
  | 9 => ⟨true, .Normal, NET_MaxVert ||| NET_MaxHoriz, 0, true, "player", 103⟩
  | _ => ⟨false, .Normal, 0, 0, false, "", 0⟩

/-- The sample desktop on a platform whose native interface reports the root
window. -/
def sampleX11 : WindowManager :=
  { windows := [5, 6, 7, 8, 9], activeWindow := 5, info := sampleInfo, rootWindow := 1,
    nativeInterface := some ⟨1⟩ }

/-- The sample desktop on a platform without a native interface. -/
def sampleNoNative : WindowManager :=
  { sampleX11 with nativeInterface := none }

/-- The sample desktop with no active window. -/
def sampleNoActive : WindowManager :=
  { sampleX11 with activeWindow := 0 }

/-- Settings in intelligent-hide mode with the round style. -/
def sampleIntellHide : DockSettings := ⟨Visibility.IntellHide, Style.Round, 8⟩

/-- Settings in another visibility mode. -/
def sampleOtherMode : DockSettings := ⟨Visibility.Other 0, Style.Round, 8⟩

/-- A tracker whose launcher flag is set and whose maximized flag is clear. -/
def sampleActivity : Activity := ⟨false, true, 0, ""⟩

/-- The panel rectangle x = 0, y = 10, width = 50, height = 200. -/
def sampleRect : QRect := ⟨0, 10, 50, 200⟩

/-- Geometry of a screen at the origin. -/
def sampleScreen : QRect := ⟨0, 0, 1920, 1080⟩

/-- Geometry of a screen placed to the right of another. -/
def sampleSecondScreen : QRect := ⟨1920, 0, 1920, 1080⟩

/-- A panel rectangle at the left edge of the second screen. -/
def sampleSecondRect : QRect := ⟨1920, 10, 50, 200⟩

/-! ## Properties of the acceptability filter -/

/-- An `int` value is left unchanged by the reduction. -/
theorem toInt32_of_isInt32 {i : Int} (h : isInt32 i) : toInt32 i = i := by
  unfold isInt32 at h
  unfold toInt32
  omega

/-- Reducing an intermediate sum does not change the reduced total. -/
theorem toInt32_toInt32_add (a b : Int) : toInt32 (toInt32 a + b) = toInt32 (a + b) := by
  unfold toInt32
  omega

/-- The mask `ignoreList` matches exactly the seven ignored types. -/
theorem typeMatchesMask_ignoreList (t : WindowType) :
    typeMatchesMask t ignoreList = true ↔
      t ∈ [WindowType.Desktop, WindowType.Dock, WindowType.Splash, WindowType.Toolbar,
        WindowType.Menu, WindowType.PopupMenu, WindowType.Notification] := by
  cases t <;> decide

/-- The mask `normalFlag` matches exactly normal, dialog and utility. -/
theorem typeMatchesMask_normalFlag (t : WindowType) :
    typeMatchesMask t normalFlag = true ↔
      t ∈ [WindowType.Normal, WindowType.Dialog, WindowType.Utility] := by
  cases t <;> decide

/-- When the guarded block returns for a target that is set and is another window,
the target is the root window read from the native interface. -/
theorem rootBlockReturns_of_unset_or_self (wm : WindowManager) (wid transFor : WId)
    (h : rootBlockReturns wm wid transFor = true) (h0 : transFor ≠ 0) (hs : transFor ≠ wid) :
    ∃ ni, wm.nativeInterface = some ni ∧ ni.rootwindowResource ≠ 0 ∧
      transFor = ni.rootwindowResource % 2 ^ 32 := by
  unfold rootBlockReturns at h
  cases hni : wm.nativeInterface with
  | none => simp [hni] at h
  | some ni =>
    refine ⟨ni, rfl, ?_⟩
    simp only [hni] at h
    by_cases hr : ni.rootwindowResource = 0
    · simp [hr] at h
    · simp [hr, h0, hs] at h
      exact ⟨hr, h⟩

/-- C2: a window whose type is desktop, dock, splash, toolbar, menu, popup-menu or
notification, or that has the skip-taskbar or the skip-pager state flag set, is not
acceptable, whatever the rest of the window manager state (transient-for target,
root window, native interface) is. -/
theorem isAcceptableWindow_ignored_or_skipped (wm : WindowManager) (wid : WId)
    (h : (wm.info wid).windowType ∈
          [WindowType.Desktop, WindowType.Dock, WindowType.Splash, WindowType.Toolbar,
            WindowType.Menu, WindowType.PopupMenu, WindowType.Notification]
        ∨ (wm.info wid).hasState NET_SkipTaskbar = true
        ∨ (wm.info wid).hasState NET_SkipPager = true) :
    isAcceptableWindow wm wid = false := by
  unfold isAcceptableWindow
  rcases h with h | h | h
  · have ht := (typeMatchesMask_ignoreList _).mpr h
    simp [ht]
  · simp [h]
  · simp [h]

/-- C2, witness: window `7` of the sample desktop is a dock panel with both skip
flags set. -/
theorem isAcceptableWindow_ignored_or_skipped_witness :
    (sampleX11.info 7).windowType = WindowType.Dock
      ∧ (sampleX11.info 7).hasState NET_SkipTaskbar = true
      ∧ isAcceptableWindow sampleX11 7 = false :=
  ⟨rfl, by decide,
    isAcceptableWindow_ignored_or_skipped sampleX11 7 (Or.inl (by decide))⟩

/-- C3: when the window manager query for a handle is invalid, the window is not
acceptable, whatever type, state flags and transient-for value the query reports;
the function is total and its only results are `true` and `false`. -/
theorem isAcceptableWindow_invalid (wm : WindowManager) (wid : WId)
    (h : (wm.info wid).valid = false) :
    isAcceptableWindow wm wid = false := by
  unfold isAcceptableWindow
  simp [h]

/-- C3, witness: handle `42` of the sample desktop is stale. -/
theorem isAcceptableWindow_invalid_witness :
    (sampleX11.info 42).valid = false ∧ isAcceptableWindow sampleX11 42 = false :=
  ⟨by decide, isAcceptableWindow_invalid sampleX11 42 (by decide)⟩

/-- C4, counterexample: on a platform without a native interface, a valid window
of type normal without skip flags whose transient-for target is the root window is
rejected when the root window is reported as type normal. -/
theorem isAcceptableWindow_root_unavailable_rejected :
    (sampleNoNative.info 5).valid = true
      ∧ (sampleNoNative.info 5).windowType ∉
          [WindowType.Desktop, WindowType.Dock, WindowType.Splash, WindowType.Toolbar,
            WindowType.Menu, WindowType.PopupMenu, WindowType.Notification]
      ∧ (sampleNoNative.info 5).hasState NET_SkipTaskbar = false
      ∧ (sampleNoNative.info 5).hasState NET_SkipPager = false
      ∧ (sampleNoNative.info 5).transientFor = sampleNoNative.rootWindow
      ∧ isAcceptableWindow sampleNoNative 5 = false := by
  decide

/-- C4, amended: a valid window that passes the type and state checks is acceptable
when its transient-for target is unset (0), equals its own handle, or equals the
root window while the native interface is available and its non-null "rootwindow"
resource, read as a 32-bit value, is that root window; in the last case whatever
type is reported for the root window. -/
theorem isAcceptableWindow_unset_self_or_root (wm : WindowManager) (wid : WId)
    (hvalid : (wm.info wid).valid = true)
    (htype : (wm.info wid).windowType ∉
          [WindowType.Desktop, WindowType.Dock, WindowType.Splash, WindowType.Toolbar,
            WindowType.Menu, WindowType.PopupMenu, WindowType.Notification])
    (htask : (wm.info wid).hasState NET_SkipTaskbar = false)
    (hpager : (wm.info wid).hasState NET_SkipPager = false)
    (htrans : (wm.info wid).transientFor = 0
        ∨ (wm.info wid).transientFor = wid
        ∨ ((wm.info wid).transientFor = wm.rootWindow
            ∧ ∃ ni, wm.nativeInterface = some ni ∧ ni.rootwindowResource ≠ 0
                ∧ ni.rootwindowResource % 2 ^ 32 = wm.rootWindow)) :
    isAcceptableWindow wm wid = true := by
  have ht : typeMatchesMask (wm.info wid).windowType ignoreList = false := by
    cases hm : typeMatchesMask (wm.info wid).windowType ignoreList with
    | false => rfl
    | true => exact absurd ((typeMatchesMask_ignoreList _).mp hm) htype
  unfold isAcceptableWindow
  simp only [hvalid, ht, htask, hpager]
  rcases htrans with h | h | ⟨h, ni, hni, hres, hroot⟩
  · simp [h]
  · simp [h]
  · have hb : rootBlockReturns wm wid (wm.info wid).transientFor = true := by
      unfold rootBlockReturns
      simp only [hni, h, ← hroot]
      simp [hres]
    simp [hb]

/-- C4, witness: window `5` of the sample desktop is transient for the root window
reported by the native interface. -/
theorem isAcceptableWindow_unset_self_or_root_witness :
    isAcceptableWindow sampleX11 5 = true :=
  isAcceptableWindow_unset_self_or_root sampleX11 5 (by decide) (by decide) (by decide)
    (by decide) (Or.inr (Or.inr ⟨by decide, ⟨1⟩, rfl, by decide, by decide⟩))

/-- C5, counterexample: window `8` is transient for itself and window `5` is
transient for the reported root window; in both cases the transient-for target has
type normal and the window is accepted. -/
theorem isAcceptableWindow_normal_target_accepted :
    ((sampleX11.info (sampleX11.info 8).transientFor).windowType = WindowType.Normal
        ∧ isAcceptableWindow sampleX11 8 = true)
      ∧ ((sampleX11.info (sampleX11.info 5).transientFor).windowType = WindowType.Normal
        ∧ isAcceptableWindow sampleX11 5 = true) := by
  decide

/-- C5, amended: a window whose transient-for target is set, is another window, is
not the root window read from an available native interface, and has type normal,
dialog or utility, is not acceptable. -/
theorem isAcceptableWindow_transient_child (wm : WindowManager) (wid : WId)
    (hset : (wm.info wid).transientFor ≠ 0)
    (hother : (wm.info wid).transientFor ≠ wid)
    (hroot : ∀ ni, wm.nativeInterface = some ni → ni.rootwindowResource ≠ 0 →
        (wm.info wid).transientFor ≠ ni.rootwindowResource % 2 ^ 32)
    (htarget : (wm.info (wm.info wid).transientFor).windowType ∈
        [WindowType.Normal, WindowType.Dialog, WindowType.Utility]) :
    isAcceptableWindow wm wid = false := by
  have hb : rootBlockReturns wm wid (wm.info wid).transientFor = false := by
    cases hm : rootBlockReturns wm wid (wm.info wid).transientFor with
    | false => rfl
    | true =>
      obtain ⟨ni, hni, hres, heq⟩ := rootBlockReturns_of_unset_or_self wm wid _ hm hset hother
      exact absurd heq (hroot ni hni hres)
  have hn := (typeMatchesMask_normalFlag _).mpr htarget
  unfold isAcceptableWindow
  simp [hb, hset, hother, hn]

/-- C5, witness: window `6` of the sample desktop is a dialog transient for the
application window `5`. -/
theorem isAcceptableWindow_transient_child_witness :
    isAcceptableWindow sampleX11 6 = false :=
  isAcceptableWindow_transient_child sampleX11 6 (by decide) (by decide)
    (by intro ni hni _; cases hni; decide) (by decide)

/-! ## Properties of the relay -/

/-- The start-up loop emits `windowAdded` for the acceptable handles, in order. -/
theorem initWindowsLoop_eq_filter (wm : WindowManager) (l : List WId) :
    initWindowsLoop wm l = (l.filter (isAcceptableWindow wm)).map RelaySignal.windowAdded := by
  induction l with
  | nil => rfl
  | cons w rest ih =>
    unfold initWindowsLoop processWindowAdded
    cases h : isAcceptableWindow wm w <;> simp [h, ih, List.filter_cons]

/-- Occurrences of `windowAdded u` among mapped handles are occurrences of `u`. -/
theorem count_windowAdded_map (u : WId) (l : List WId) :
    (l.map RelaySignal.windowAdded).count (RelaySignal.windowAdded u) = l.count u := by
  induction l with
  | nil => rfl
  | cons w rest ih =>
    by_cases h : w = u
    · subst h; simp [ih]
    · have h2 : RelaySignal.windowAdded w ≠ RelaySignal.windowAdded u := by
        intro hc; exact h (RelaySignal.windowAdded.inj hc)
      simp [List.count_cons, h, h2, ih]

/-- C1: handling a window-added notification for `w` emits the single signal
`windowAdded w` when `w` is acceptable and emits nothing when it is not, so the
number of `windowAdded` signals is one or zero; `startInitWindows` emits
`windowAdded` for the acceptable handles of the window list, in list order, one
signal for each occurrence of an acceptable handle and none for any other. -/
theorem relay_add_filter (wm : WindowManager) :
    (∀ w, handleWindowAdded wm w
          = (if isAcceptableWindow wm w then [RelaySignal.windowAdded w] else [])
        ∧ processWindowAdded wm w = handleWindowAdded wm w
        ∧ windowAddedCount (handleWindowAdded wm w)
          = (if isAcceptableWindow wm w then 1 else 0))
      ∧ startInitWindows wm
          = (wm.windows.filter (isAcceptableWindow wm)).map RelaySignal.windowAdded
      ∧ (∀ u, (startInitWindows wm).count (RelaySignal.windowAdded u)
          = (if isAcceptableWindow wm u then wm.windows.count u else 0))
      ∧ windowAddedCount (startInitWindows wm)
          = (wm.windows.filter (isAcceptableWindow wm)).length := by
  refine ⟨?_, ?_, ?_, ?_⟩
  · intro w
    unfold handleWindowAdded processWindowAdded windowAddedCount
    cases h : isAcceptableWindow wm w <;> simp
  · exact initWindowsLoop_eq_filter wm wm.windows
  · intro u
    unfold startInitWindows
    simp only [initWindowsLoop_eq_filter, count_windowAdded_map]
    cases h : isAcceptableWindow wm u
    · simp [List.count_eq_zero, h]
    · simp [List.count_filter, h]
  · unfold startInitWindows windowAddedCount
    simp only [initWindowsLoop_eq_filter]
    simp [List.countP_map, Function.comp_def]

/-! ## Properties of the activity tracker -/

/-- The scan loop returns true exactly when a qualifying window is in the list. -/
theorem existsAnyMaximizedWindow_iff (wm : WindowManager) (l : List WId) :
    existsAnyMaximizedWindow wm l = true ↔
      ∃ w ∈ l, (wm.info w).isMinimized = false
        ∧ (wm.info w).hasState NET_SkipTaskbar = false
        ∧ (wm.info w).hasState NET_MaxVert = true
        ∧ (wm.info w).hasState NET_MaxHoriz = true := by
  induction l with
  | nil => simp [existsAnyMaximizedWindow]
  | cons w rest ih =>
    unfold existsAnyMaximizedWindow
    cases hm : (wm.info w).isMinimized <;> cases hs : (wm.info w).hasState NET_SkipTaskbar <;>
      cases hv : (wm.info w).hasState NET_MaxVert <;>
      cases hh : (wm.info w).hasState NET_MaxHoriz <;>
      simp [hm, hs, hv, hh, ih]

/-- Effect of the handler on the maximized flag and its signal. -/
theorem onActiveWindowChanged_maximized (settings : DockSettings) (wm : WindowManager)
    (self : Activity) :
    (onActiveWindowChanged settings wm self).1.m_existsWindowMaximized
        = (if wm.activeWindow ≠ 0 ∧ settings.visibility = Visibility.IntellHide
            then existsAnyMaximizedWindow wm wm.windows
            else self.m_existsWindowMaximized)
      ∧ (onActiveWindowChanged settings wm self).2.count
            ActivitySignal.existsWindowMaximizedChanged
        = (if wm.activeWindow ≠ 0 ∧ settings.visibility = Visibility.IntellHide
              ∧ self.m_existsWindowMaximized ≠ existsAnyMaximizedWindow wm wm.windows
            then 1 else 0) := by
  unfold onActiveWindowChanged
  dsimp only
  generalize ((wm.info wm.activeWindow).windowClassClass == "cutefish-launcher"
    || (wm.info wm.activeWindow).windowType == WindowType.Dock) = lp
  generalize existsAnyMaximizedWindow wm wm.windows = scan
  rcases self with ⟨e, l, pid, cls⟩
  by_cases ha : wm.activeWindow = 0
  · cases l <;> simp [ha]
  · by_cases hv : settings.visibility = Visibility.IntellHide
    · cases e <;> cases l <;> cases lp <;> cases scan <;> simp [ha, hv]
    · cases l <;> cases lp <;> simp [ha, hv]

/-- C6: the scan over a list of windows yields true exactly when some window of
the list is not minimized, does not have skip-taskbar and has both maximize flags;
on the empty list it yields false; and in intelligent-hide mode with an active
window the stored flag after the handler equals the scan over the known windows. -/
theorem maximized_scan (settings : DockSettings) (wm : WindowManager) (self : Activity)
    (hmode : settings.visibility = Visibility.IntellHide) (hactive : wm.activeWindow ≠ 0) :
    (∀ l : List WId, existsAnyMaximizedWindow wm l = true ↔
        ∃ w ∈ l, (wm.info w).isMinimized = false
          ∧ (wm.info w).hasState NET_SkipTaskbar = false
          ∧ (wm.info w).hasState NET_MaxVert = true
          ∧ (wm.info w).hasState NET_MaxHoriz = true)
      ∧ existsAnyMaximizedWindow wm [] = false
      ∧ (onActiveWindowChanged settings wm self).1.m_existsWindowMaximized
          = existsAnyMaximizedWindow wm wm.windows := by
  refine ⟨existsAnyMaximizedWindow_iff wm, rfl, ?_⟩
  rw [(onActiveWindowChanged_maximized settings wm self).1]
  simp [hmode, hactive]

/-- C6, witness: on the sample desktop window `8` is maximized, so the stored flag
becomes true. -/
theorem maximized_scan_witness :
    sampleIntellHide.visibility = Visibility.IntellHide
      ∧ sampleX11.activeWindow ≠ 0
      ∧ (onActiveWindowChanged sampleIntellHide sampleX11 sampleActivity).1.m_existsWindowMaximized
          = existsAnyMaximizedWindow sampleX11 sampleX11.windows
      ∧ existsAnyMaximizedWindow sampleX11 sampleX11.windows = true :=
  ⟨rfl, by decide,
    (maximized_scan sampleIntellHide sampleX11 sampleActivity rfl (by decide)).2.2,
    by decide⟩

/-- C7: when the window manager reports no active window, the handler leaves the
launcher flag false, emits `launchPadChanged` exactly once when the flag was true
and emits nothing when it was false, and changes nothing else. -/
theorem no_active_window_clears_launchPad (settings : DockSettings) (wm : WindowManager)
    (self : Activity) (hnone : wm.activeWindow = 0) :
    (onActiveWindowChanged settings wm self).1.m_launchPad = false
      ∧ (onActiveWindowChanged settings wm self).2.count ActivitySignal.launchPadChanged
          = (if self.m_launchPad then 1 else 0)
      ∧ (onActiveWindowChanged settings wm self).2
          = (if self.m_launchPad then [ActivitySignal.launchPadChanged] else [])
      ∧ (onActiveWindowChanged settings wm self).1 = { self with m_launchPad := false } := by
  unfold onActiveWindowChanged
  rcases self with ⟨e, l, pid, cls⟩
  cases l <;> simp [hnone]

/-- C7, witness: the sample tracker has its launcher flag set and the desktop has
no active window. -/
theorem no_active_window_clears_launchPad_witness :
    sampleNoActive.activeWindow = 0
      ∧ (onActiveWindowChanged sampleIntellHide sampleNoActive sampleActivity).1.m_launchPad
          = false
      ∧ (onActiveWindowChanged sampleIntellHide sampleNoActive sampleActivity).2.count
          ActivitySignal.launchPadChanged = 1 :=
  ⟨rfl,
    (no_active_window_clears_launchPad sampleIntellHide sampleNoActive sampleActivity rfl).1,
    (no_active_window_clears_launchPad sampleIntellHide sampleNoActive sampleActivity rfl).2.1⟩

/-- C8: when the visibility mode is not intelligent hide the handler leaves the
stored maximized flag unchanged and emits no `existsWindowMaximizedChanged`; the
flag changes, and the signal is emitted, only in a run in intelligent-hide mode;
and in every run the signal is emitted once when the flag changed and not at all
when it did not. -/
theorem maximized_frozen_outside_intellHide (settings : DockSettings) (wm : WindowManager)
    (self : Activity) :
    (settings.visibility ≠ Visibility.IntellHide →
        (onActiveWindowChanged settings wm self).1.m_existsWindowMaximized
            = self.m_existsWindowMaximized
          ∧ (onActiveWindowChanged settings wm self).2.count
              ActivitySignal.existsWindowMaximizedChanged = 0)
      ∧ ((onActiveWindowChanged settings wm self).1.m_existsWindowMaximized
            ≠ self.m_existsWindowMaximized → settings.visibility = Visibility.IntellHide)
      ∧ (0 < (onActiveWindowChanged settings wm self).2.count
            ActivitySignal.existsWindowMaximizedChanged →
          settings.visibility = Visibility.IntellHide)
      ∧ (onActiveWindowChanged settings wm self).2.count
            ActivitySignal.existsWindowMaximizedChanged
          = (if (onActiveWindowChanged settings wm self).1.m_existsWindowMaximized
                ≠ self.m_existsWindowMaximized then 1 else 0) := by
  obtain ⟨hflag, hcount⟩ := onActiveWindowChanged_maximized settings wm self
  rw [hflag, hcount]
  by_cases ha : wm.activeWindow = 0
  · simp [ha]
  · by_cases hv : settings.visibility = Visibility.IntellHide
    · by_cases hc : self.m_existsWindowMaximized = existsAnyMaximizedWindow wm wm.windows
      · simp [ha, hv, hc]
      · have hc2 : existsAnyMaximizedWindow wm wm.windows ≠ self.m_existsWindowMaximized :=
          fun h => hc h.symm
        simp [ha, hv, hc, hc2]
    · simp [ha, hv]

/-- C8, witness: in another mode the sample desktop, which has a maximized window,
leaves the clear flag clear; in intelligent-hide mode the flag changes and the
signal is emitted once. -/
theorem maximized_frozen_outside_intellHide_witness :
    sampleOtherMode.visibility ≠ Visibility.IntellHide
      ∧ ((onActiveWindowChanged sampleOtherMode sampleX11 sampleActivity).1.m_existsWindowMaximized
            = sampleActivity.m_existsWindowMaximized
          ∧ (onActiveWindowChanged sampleOtherMode sampleX11 sampleActivity).2.count
              ActivitySignal.existsWindowMaximizedChanged = 0)
      ∧ (onActiveWindowChanged sampleIntellHide sampleX11 sampleActivity).1.m_existsWindowMaximized
          = true
      ∧ (onActiveWindowChanged sampleIntellHide sampleX11 sampleActivity).2.count
          ActivitySignal.existsWindowMaximizedChanged = 1 :=
  ⟨by decide,
    (maximized_frozen_outside_intellHide sampleOtherMode sampleX11 sampleActivity).1 (by decide),
    by decide, by decide⟩

/-! ## Properties of the strut computation -/

/-- C9: for direction Left without compositing on a screen whose geometry has left
coordinate 0, and a rectangle (x, y, w, h) of `int` values, the strut has
left_width = w, left_start = y and left_end = y + h - 1 computed as an `int`, which
is exactly y + h - 1 whenever that value is an `int`; for the rectangle
(0, 10, 50, 200) these are 50, 10 and 209. -/
theorem setViewStruts_left_at_origin (settings : DockSettings) (screenGeometry rect : QRect)
    (hleft : screenGeometry.left = 0) (hrect : rect.isInt32) :
    ((setViewStruts settings screenGeometry Direction.Left rect false).left_width = rect.width
        ∧ (setViewStruts settings screenGeometry Direction.Left rect false).left_start = rect.y
        ∧ (setViewStruts settings screenGeometry Direction.Left rect false).left_end
            = toInt32 (rect.y + rect.height - 1)
        ∧ (isInt32 (rect.y + rect.height - 1) →
            (setViewStruts settings screenGeometry Direction.Left rect false).left_end
              = rect.y + rect.height - 1))
      ∧ ((setViewStruts settings screenGeometry Direction.Left ⟨0, 10, 50, 200⟩ false).left_width
            = 50
        ∧ (setViewStruts settings screenGeometry Direction.Left ⟨0, 10, 50, 200⟩ false).left_start
            = 10
        ∧ (setViewStruts settings screenGeometry Direction.Left ⟨0, 10, 50, 200⟩ false).left_end
            = 209) := by
  obtain ⟨_, hy, hw, hh⟩ := hrect
  unfold isInt32 at hy hw hh
  refine ⟨⟨?_, ?_, ?_, ?_⟩, ?_, ?_, ?_⟩
  · simp only [setViewStruts, hleft, Bool.false_and, Bool.false_eq_true, if_false]
    unfold toInt32
    omega
  · simp only [setViewStruts]
  · simp only [setViewStruts]
    unfold toInt32
    omega
  · intro hr
    unfold isInt32 at hr
    simp only [setViewStruts]
    unfold toInt32
    omega
  · simp only [setViewStruts, hleft, Bool.false_and, Bool.false_eq_true, if_false]
    decide
  · simp only [setViewStruts]
  · simp only [setViewStruts]
    decide

/-- C9, witness: the sample rectangle on the sample screen. -/
theorem setViewStruts_left_at_origin_witness :
    sampleScreen.left = 0 ∧ sampleRect.isInt32
      ∧ (setViewStruts sampleIntellHide sampleScreen Direction.Left sampleRect false).left_width
          = 50
      ∧ (setViewStruts sampleIntellHide sampleScreen Direction.Left sampleRect false).left_start
          = 10
      ∧ (setViewStruts sampleIntellHide sampleScreen Direction.Left sampleRect false).left_end
          = 209 :=
  ⟨rfl, by decide,
    (setViewStruts_left_at_origin sampleIntellHide sampleScreen sampleRect rfl (by decide)).2⟩

/-- C10, counterexample: for direction Left on a screen whose geometry starts at
x = 1920, without compositing, the rectangle of width 50 gets left_width 1970, not
the rectangle width plus nothing. -/
theorem setViewStruts_left_includes_screen_offset :
    (setViewStruts sampleIntellHide sampleSecondScreen Direction.Left sampleSecondRect
        false).left_width = 1970
      ∧ (setViewStruts sampleIntellHide sampleSecondScreen Direction.Left sampleSecondRect
        false).left_width ≠ sampleSecondRect.width + 0 := by
  decide

/-- C10, amended: with `m` the configured edge margin when compositing is active and
the style is round, and 0 otherwise, all sums taken as `int` values: for Left the
width is rect width + screen geometry left + m, the start is rect y and the end is
rect y + rect height - 1; for Bottom the width is rect height + m, the start is
rect x and the end is rect x + rect width; for Right the width is rect width + m,
the start is rect y and the end is rect y + rect height - 1. -/
theorem setViewStruts_formula (settings : DockSettings) (screenGeometry rect : QRect)
    (compositing : Bool) (m : Int)
    (hm : m = if compositing = true ∧ settings.style = Style.Round
              then settings.edgeMargins else 0) :
    ((setViewStruts settings screenGeometry Direction.Left rect compositing).left_width
          = toInt32 (rect.width + screenGeometry.left + m)
        ∧ (setViewStruts settings screenGeometry Direction.Left rect compositing).left_start
          = rect.y
        ∧ (setViewStruts settings screenGeometry Direction.Left rect compositing).left_end
          = toInt32 (rect.y + rect.height - 1))
      ∧ ((setViewStruts settings screenGeometry Direction.Bottom rect compositing).bottom_width
          = toInt32 (rect.height + m)
        ∧ (setViewStruts settings screenGeometry Direction.Bottom rect compositing).bottom_start
          = rect.x
        ∧ (setViewStruts settings screenGeometry Direction.Bottom rect compositing).bottom_end
          = toInt32 (rect.x + rect.width))
      ∧ ((setViewStruts settings screenGeometry Direction.Right rect compositing).right_width
          = toInt32 (rect.width + m)
        ∧ (setViewStruts settings screenGeometry Direction.Right rect compositing).right_start
          = rect.y
        ∧ (setViewStruts settings screenGeometry Direction.Right rect compositing).right_end
          = toInt32 (rect.y + rect.height - 1)) := by
  have hm2 : (if (compositing && (settings.style == Style.Round)) = true
      then settings.edgeMargins else 0) = m := by
    rw [hm]
    cases compositing <;> by_cases hs : settings.style = Style.Round <;> simp [hs]
  refine ⟨⟨?_, ?_, ?_⟩, ⟨?_, ?_, ?_⟩, ⟨?_, ?_, ?_⟩⟩ <;>
    simp only [setViewStruts, hm2, toInt32_toInt32_add] <;>
    (unfold toInt32; omega)

/-- C10, witness: the sample rectangle on the second screen with compositing and
the round style, edge margin 8. -/
theorem setViewStruts_formula_witness :
    (setViewStruts sampleIntellHide sampleSecondScreen Direction.Left sampleSecondRect
        true).left_width = 1978
      ∧ (setViewStruts sampleIntellHide sampleSecondScreen Direction.Bottom sampleSecondRect
        true).bottom_end = 1970
      ∧ (setViewStruts sampleIntellHide sampleSecondScreen Direction.Right sampleSecondRect
        true).right_end = 209 :=
  ⟨(setViewStruts_formula sampleIntellHide sampleSecondScreen sampleSecondRect true 8
      (by decide)).1.1.trans (by decide),
    (setViewStruts_formula sampleIntellHide sampleSecondScreen sampleSecondRect true 8
      (by decide)).2.1.2.2.trans (by decide),
    (setViewStruts_formula sampleIntellHide sampleSecondScreen sampleSecondRect true 8
      (by decide)).2.2.2.2.trans (by decide)⟩

end Dock
